import Mathlib

/-!
Verification of the `edges` pointer-edge daemon (src/main.rs).

Shallow embedding: the pure classification, geometry and dispatch logic of
`main.rs` is translated into Lean definitions; the per-event body of the main
loop becomes an explicit state-transformer `processMotion` on the tracker
state `(oldx, oldy)`.  `i32` coordinates are modelled as `Int` (no arithmetic
here approaches the `i32` range).  The X11 calls are modelled as parameters:
the pointer samples returned by `XQueryPointer` become explicit arguments,
and a `panic!` becomes `none` in an `Option` result.
-/

namespace Edges

/-- The `Edge` enum from main.rs: the nine symbolic zones. -/
inductive Edge where
  | TOPLEFT
  | TOPRIGHT
  | BOTTOMRIGHT
  | BOTTOMLEFT
  | LEFT
  | TOP
  | RIGHT
  | BOTTOM
  | NONE
deriving DecidableEq

/-- `in_edge` from main.rs (lines 150-177): ordered classification of a
pointer coordinate against the active bounds and the hot-zone offset. -/
def in_edge (x y xmax ymax offset : Int) : Edge :=
  if x = 0 ∧ y = 0 then Edge.TOPLEFT
  else if x = xmax ∧ y = 0 then Edge.TOPRIGHT
  else if x = xmax ∧ y = ymax then Edge.BOTTOMRIGHT
  else if x = 0 ∧ y = ymax then Edge.BOTTOMLEFT
  else if x = 0 ∧ offset < y ∧ y < ymax - offset then Edge.LEFT
  else if y = 0 ∧ offset < x ∧ x < xmax - offset then Edge.TOP
  else if x = xmax ∧ offset < y ∧ y < ymax - offset then Edge.RIGHT
  else if y = ymax ∧ offset < x ∧ x < xmax - offset then Edge.BOTTOM
  else Edge.NONE

end Edges

namespace Edges

/-- One entry of the `XRRMonitorInfo` array: the monitor rectangle fields
read by main.rs (x, y, width, height). -/
structure MonitorInfo where
  x : Int
  y : Int
  width : Int
  height : Int
deriving DecidableEq

/-- `point_in_rect` from main.rs (lines 88-97). -/
def point_in_rect (x y : Int) (rect : Int × Int × Int × Int) : Bool :=
  let (rx, ry, rw, rh) := rect
  decide ((rx ≤ x ∧ x < rx + rw) ∧ (ry ≤ y ∧ y < ry + rh))

/-- `pointer_in_monitor` from main.rs (lines 99-115): scans the monitor array
in order and returns the index of the first rectangle containing the point.
The source returns `-1` when no rectangle contains it; that sentinel is
modelled as `none`. -/
def pointer_in_monitor (x y : Int) : List MonitorInfo → Option Nat
  | [] => none
  | m :: rest =>
    if point_in_rect x y (m.x, m.y, m.width, m.height) then some 0
    else (pointer_in_monitor x y rest).map (fun i => i + 1)

/-- `get_xymax` from main.rs (lines 117-148).  `rootw`/`rooth` stand for the
values of `XDisplayWidth`/`XDisplayHeight`.  With a single monitor the root
bounds are returned unchanged; otherwise the containing monitor is looked up
(`none` models the source's `panic!` when `pointer_in_monitor` returns -1)
and each root bound is shrunk to the monitor's far edge when that edge does
not exceed it. -/
def get_xymax (x y rootw rooth : Int) (monitors : List MonitorInfo) :
    Option (Int × Int) :=
  if monitors.length = 1 then some (rootw - 1, rooth - 1)
  else
    match pointer_in_monitor x y monitors with
    | none => none
    | some i =>
      match monitors.get? i with
      | none => none
      | some m =>
        some (if m.x + m.width ≤ rootw - 1 then m.x + m.width - 1 else rootw - 1,
              if m.y + m.height ≤ rooth - 1 then m.y + m.height - 1 else rooth - 1)

/-- The `Commands` struct from main.rs: one optional command string per
active zone. -/
structure Commands where
  topleft : Option String
  topright : Option String
  bottomright : Option String
  bottomleft : Option String
  left : Option String
  top : Option String
  right : Option String
  bottom : Option String

/-- The `match edge` table at the start of `run` in main.rs
(lines 181-191): the command configured for a zone (`NONE` falls to the
wildcard arm and yields no command). -/
def cmd_for (cmds : Commands) (edge : Edge) : Option String :=
  match edge with
  | Edge.TOPLEFT => cmds.topleft
  | Edge.TOPRIGHT => cmds.topright
  | Edge.BOTTOMRIGHT => cmds.bottomright
  | Edge.BOTTOMLEFT => cmds.bottomleft
  | Edge.LEFT => cmds.left
  | Edge.TOP => cmds.top
  | Edge.RIGHT => cmds.right
  | Edge.BOTTOM => cmds.bottom
  | _ => none

/-- Splits a character list into its maximal whitespace-free runs, carrying
the (reversed) run collected so far. -/
def split_whitespace_aux : List Char → List Char → List (List Char)
  | [], acc => if acc.isEmpty then [] else [acc.reverse]
  | c :: cs, acc =>
    if c.isWhitespace then
      if acc.isEmpty then split_whitespace_aux cs []
      else acc.reverse :: split_whitespace_aux cs []
    else split_whitespace_aux cs (c :: acc)

/-- Rust's `split_whitespace().collect()`: the whitespace-separated tokens
of a command string, with no empty tokens. -/
def tokenize (s : String) : List String :=
  (split_whitespace_aux s.data []).map (fun cs => String.mk cs)

/-- The observable effect of `run` from main.rs (lines 179-224): `some args`
when a command is forked/exec'd with the token list `args`, `none` when `run`
returns without launching anything (no command configured, or the command
string tokenizes to an empty list).  The fork/execvp mechanics themselves are
an external collaborator. -/
def run (cmds : Commands) (edge : Edge) : Option (List String) :=
  match cmd_for cmds edge with
  | none => none
  | some s =>
    let split := tokenize s
    if split.isEmpty then none
    else some split

/-- The mutable tracker state of the main loop: `oldx`/`oldy`
(main.rs lines 370-371). -/
structure LoopState where
  oldx : Int
  oldy : Int
deriving DecidableEq

/-- `oldx`/`oldy` are initialized to 1 (main.rs lines 370-371). -/
def initState : LoopState :=
  ⟨1, 1⟩

/-- The suppression condition of main.rs lines 406-408 ("Make sure we run
commands only once on edge hits"): the sample equals the previous one, or
slides along the same vertical/horizontal line strictly inside the offset
band. -/
def suppressed (oldx oldy x y xmax ymax offset : Int) : Bool :=
  decide ((x = oldx ∧ y = oldy) ∨
          (x = oldx ∧ offset < y ∧ y < ymax - offset) ∨
          (y = oldy ∧ offset < x ∧ x < xmax - offset))

/-- One iteration of the per-motion-event body of the main loop
(main.rs lines 394-431), after the sample `(x, y)` and the bounds
`xmax`, `ymax`, `offset` have been obtained.  `resample` is the pair returned
by the second `query_pointer` call after the delay sleep.  The result is the
dispatched zone (`some e` exactly when `run` is reached with zone `e`,
`none` otherwise) and the updated tracker state.

Note the Rust scoping in lines 424-431: the post-delay `let (x, y) = ...`
shadows the sample only inside the `if edge != Edge::NONE` block, so the
assignments `oldx = x; oldy = y;` after that block read the outer, pre-delay
sample. -/
def processMotion (st : LoopState) (x y xmax ymax offset : Int)
    (resample : Int × Int) : Option Edge × LoopState :=
  if suppressed st.oldx st.oldy x y xmax ymax offset then
    (none, st)
  else
    let edge := in_edge x y xmax ymax offset
    if edge ≠ Edge.NONE then
      let x2 := resample.1
      let y2 := resample.2
      let dispatched := if in_edge x2 y2 xmax ymax offset = edge
        then some edge else none
      (dispatched, ⟨x, y⟩)
    else
      (none, ⟨x, y⟩)

/-- C5: at a non-degenerate configuration (xmax ≠ 0 and ymax ≠ 0), each of the
four boundary-corner points classifies to its matching corner zone, for every
offset (so corners take priority over the edge bands), and no two distinct
corner conditions hold at the same point. -/
theorem C5_corners (xmax ymax offset : Int) (hx : xmax ≠ 0) (hy : ymax ≠ 0) :
    in_edge 0 0 xmax ymax offset = Edge.TOPLEFT ∧
    in_edge xmax 0 xmax ymax offset = Edge.TOPRIGHT ∧
    in_edge xmax ymax xmax ymax offset = Edge.BOTTOMRIGHT ∧
    in_edge 0 ymax xmax ymax offset = Edge.BOTTOMLEFT ∧
    (∀ x y : Int, ¬((x = 0 ∧ y = 0) ∧ (x = xmax ∧ y = 0))) ∧
    (∀ x y : Int, ¬((x = 0 ∧ y = 0) ∧ (x = xmax ∧ y = ymax))) ∧
    (∀ x y : Int, ¬((x = 0 ∧ y = 0) ∧ (x = 0 ∧ y = ymax))) ∧
    (∀ x y : Int, ¬((x = xmax ∧ y = 0) ∧ (x = xmax ∧ y = ymax))) ∧
    (∀ x y : Int, ¬((x = xmax ∧ y = 0) ∧ (x = 0 ∧ y = ymax))) ∧
    (∀ x y : Int, ¬((x = xmax ∧ y = ymax) ∧ (x = 0 ∧ y = ymax))) := by
  refine ⟨?_, ?_, ?_, ?_, ?_, ?_, ?_, ?_, ?_, ?_⟩
  · simp [in_edge]
  · simp [in_edge, hx]
  · simp [in_edge, hx, hy]
  · simp [in_edge, hx, hy, Ne.symm hx]
  all_goals exact fun x y h => by omega

/-- C5 witness at xmax = 1919, ymax = 1079, offset = 269. -/
theorem C5_corners_witness :
    (1919 : Int) ≠ 0 ∧ (1079 : Int) ≠ 0 ∧
    in_edge 0 0 1919 1079 269 = Edge.TOPLEFT ∧
    in_edge 1919 0 1919 1079 269 = Edge.TOPRIGHT ∧
    in_edge 1919 1079 1919 1079 269 = Edge.BOTTOMRIGHT ∧
    in_edge 0 1079 1919 1079 269 = Edge.BOTTOMLEFT :=
  have h := C5_corners 1919 1079 269 (by decide) (by decide)
  ⟨by decide, by decide, h.1, h.2.1, h.2.2.1, h.2.2.2.1⟩

theorem in_edge_left_band (x y xmax ymax offset : Int) (h0 : 0 ≤ offset)
    (h1 : x = 0) (h2 : offset < y) (h3 : y < ymax - offset) :
    in_edge x y xmax ymax offset = Edge.LEFT := by
  rw [in_edge]
  split_ifs <;> first | rfl | (exfalso; omega)

theorem in_edge_top_band (x y xmax ymax offset : Int) (h0 : 0 ≤ offset)
    (h1 : y = 0) (h2 : offset < x) (h3 : x < xmax - offset) :
    in_edge x y xmax ymax offset = Edge.TOP := by
  rw [in_edge]
  split_ifs <;> first | rfl | (exfalso; omega)

theorem in_edge_right_band (x y xmax ymax offset : Int) (h0 : 0 ≤ offset)
    (hx : xmax ≠ 0) (h1 : x = xmax) (h2 : offset < y) (h3 : y < ymax - offset) :
    in_edge x y xmax ymax offset = Edge.RIGHT := by
  rw [in_edge]
  split_ifs <;> first | rfl | (exfalso; omega)

theorem in_edge_bottom_band (x y xmax ymax offset : Int) (h0 : 0 ≤ offset)
    (hy : ymax ≠ 0) (h1 : y = ymax) (h2 : offset < x) (h3 : x < xmax - offset) :
    in_edge x y xmax ymax offset = Edge.BOTTOM := by
  rw [in_edge]
  split_ifs <;> first | rfl | (exfalso; omega)

theorem in_edge_at_offset (xmax ymax offset : Int) (h0 : 0 < offset)
    (h1 : offset + 1 < ymax - offset) :
    in_edge 0 offset xmax ymax offset = Edge.NONE := by
  rw [in_edge]
  split_ifs <;> first | rfl | (exfalso; omega)

theorem in_edge_past_offset (xmax ymax offset : Int) (h0 : 0 < offset)
    (h1 : offset + 1 < ymax - offset) :
    in_edge 0 (offset + 1) xmax ymax offset = Edge.LEFT := by
  rw [in_edge]
  split_ifs <;> first | rfl | (exfalso; omega)

/-- C6: for a non-negative offset, a point with x = 0 strictly inside the
band (offset, ymax - offset) classifies Left, and symmetrically Top, Right
(needs xmax ≠ 0), Bottom (needs ymax ≠ 0); the band is strict: with
0 < offset and offset + 1 < ymax - offset, the boundary point (0, offset)
classifies None while (0, offset + 1) classifies Left. -/
theorem C6_edge_bands (x y xmax ymax offset : Int) :
    (0 ≤ offset → x = 0 → offset < y → y < ymax - offset →
      in_edge x y xmax ymax offset = Edge.LEFT) ∧
    (0 ≤ offset → y = 0 → offset < x → x < xmax - offset →
      in_edge x y xmax ymax offset = Edge.TOP) ∧
    (0 ≤ offset → xmax ≠ 0 → x = xmax → offset < y → y < ymax - offset →
      in_edge x y xmax ymax offset = Edge.RIGHT) ∧
    (0 ≤ offset → ymax ≠ 0 → y = ymax → offset < x → x < xmax - offset →
      in_edge x y xmax ymax offset = Edge.BOTTOM) ∧
    (0 < offset → offset + 1 < ymax - offset →
      in_edge 0 offset xmax ymax offset = Edge.NONE) ∧
    (0 < offset → offset + 1 < ymax - offset →
      in_edge 0 (offset + 1) xmax ymax offset = Edge.LEFT) :=
  ⟨fun h0 h1 h2 h3 => in_edge_left_band x y xmax ymax offset h0 h1 h2 h3,
   fun h0 h1 h2 h3 => in_edge_top_band x y xmax ymax offset h0 h1 h2 h3,
   fun h0 hx h1 h2 h3 => in_edge_right_band x y xmax ymax offset h0 hx h1 h2 h3,
   fun h0 hy h1 h2 h3 => in_edge_bottom_band x y xmax ymax offset h0 hy h1 h2 h3,
   fun h0 h1 => in_edge_at_offset xmax ymax offset h0 h1,
   fun h0 h1 => in_edge_past_offset xmax ymax offset h0 h1⟩

/-- C6 witness: each band part applied at a concrete non-degenerate
configuration (xmax = 1919, ymax = 1079, offset = 269). -/
theorem C6_edge_bands_witness :
    in_edge 0 500 1919 1079 269 = Edge.LEFT ∧
    in_edge 500 0 1919 1079 269 = Edge.TOP ∧
    in_edge 1919 500 1919 1079 269 = Edge.RIGHT ∧
    in_edge 500 1079 1919 1079 269 = Edge.BOTTOM ∧
    in_edge 0 269 1919 1079 269 = Edge.NONE ∧
    in_edge 0 270 1919 1079 269 = Edge.LEFT :=
  ⟨(C6_edge_bands 0 500 1919 1079 269).1 (by decide) rfl (by decide) (by decide),
   (C6_edge_bands 500 0 1919 1079 269).2.1 (by decide) rfl (by decide) (by decide),
   (C6_edge_bands 1919 500 1919 1079 269).2.2.1 (by decide) (by decide) rfl
     (by decide) (by decide),
   (C6_edge_bands 500 1079 1919 1079 269).2.2.2.1 (by decide) (by decide) rfl
     (by decide) (by decide),
   (C6_edge_bands 0 269 1919 1079 269).2.2.2.2.1 (by decide) (by decide),
   (C6_edge_bands 0 270 1919 1079 269).2.2.2.2.2 (by decide) (by decide)⟩

/-- C10: every non-None classification lies on the rectangle boundary, and
every strictly interior point classifies None. -/
theorem C10_boundary_only (x y xmax ymax offset : Int) :
    (in_edge x y xmax ymax offset ≠ Edge.NONE →
      x = 0 ∨ x = xmax ∨ y = 0 ∨ y = ymax) ∧
    (0 < x → x < xmax → 0 < y → y < ymax →
      in_edge x y xmax ymax offset = Edge.NONE) := by
  constructor
  · intro hne
    rw [in_edge] at hne
    split_ifs at hne <;> first | omega | exact absurd rfl hne
  · intros
    simp only [in_edge]
    split_ifs <;> first | rfl | (exfalso; omega)

theorem pointer_in_monitor_none (x y : Int) (ms : List MonitorInfo)
    (h : ∀ m ∈ ms, point_in_rect x y (m.x, m.y, m.width, m.height) = false) :
    pointer_in_monitor x y ms = none := by
  induction ms with
  | nil => rfl
  | cons m rest ih =>
    have hm := h m (List.mem_cons_self m rest)
    have hrest : ∀ m2 ∈ rest,
        point_in_rect x y (m2.x, m2.y, m2.width, m2.height) = false :=
      fun m2 hm2 => h m2 (List.mem_cons_of_mem m hm2)
    simp [pointer_in_monitor, hm, ih hrest]

theorem pointer_in_monitor_first (x y : Int) (ms : List MonitorInfo) (i : Nat)
    (m : MonitorInfo) (hm : ms.get? i = some m)
    (hmatch : point_in_rect x y (m.x, m.y, m.width, m.height) = true)
    (hbefore : ∀ mj ∈ ms.take i,
      point_in_rect x y (mj.x, mj.y, mj.width, mj.height) = false) :
    pointer_in_monitor x y ms = some i := by
  induction ms generalizing i with
  | nil => simp at hm
  | cons hd rest ih =>
    cases i with
    | zero =>
      rw [List.get?_cons_zero, Option.some.injEq] at hm
      subst hm
      simp [pointer_in_monitor, hmatch]
    | succ k =>
      rw [List.get?_cons_succ] at hm
      have hhd : point_in_rect x y (hd.x, hd.y, hd.width, hd.height) = false := by
        apply hbefore
        rw [List.take_succ_cons]
        exact List.mem_cons_self hd _
      have hrest : ∀ mj ∈ rest.take k,
          point_in_rect x y (mj.x, mj.y, mj.width, mj.height) = false := by
        intro mj hmj
        apply hbefore
        rw [List.take_succ_cons]
        exact List.mem_cons_of_mem hd hmj
      simp [pointer_in_monitor, hhd, ih k hm hrest]

/-- C7: in the multi-monitor path, the resolver yields exactly
(min(root_width, monitor.x + monitor.width) - 1,
 min(root_height, monitor.y + monitor.height) - 1) for the containing
monitor, never exceeding the root bounds; and on the concrete two-monitor
layout M0 = (0,0,1920,1080), M1 = (1920,0,1920,1080) with a 3840x1080 root,
sample (1920,0) resolves to (3839,1079) and sample (1919,1079) to
(1919,1079). -/
theorem C7_monitor_bounds (x y rootw rooth : Int) (monitors : List MonitorInfo)
    (hn : monitors.length ≠ 1) (i : Nat) (m : MonitorInfo)
    (hi : pointer_in_monitor x y monitors = some i)
    (hm : monitors.get? i = some m) :
    get_xymax x y rootw rooth monitors =
      some (min rootw (m.x + m.width) - 1, min rooth (m.y + m.height) - 1) ∧
    min rootw (m.x + m.width) - 1 ≤ rootw - 1 ∧
    min rooth (m.y + m.height) - 1 ≤ rooth - 1 ∧
    get_xymax 1920 0 3840 1080 [⟨0, 0, 1920, 1080⟩, ⟨1920, 0, 1920, 1080⟩] =
      some (3839, 1079) ∧
    get_xymax 1919 1079 3840 1080 [⟨0, 0, 1920, 1080⟩, ⟨1920, 0, 1920, 1080⟩] =
      some (1919, 1079) := by
  refine ⟨?_, ?_, ?_, by decide, by decide⟩
  · rw [get_xymax, if_neg hn]
    simp only [hi, hm]
    have e1 : (if m.x + m.width ≤ rootw - 1 then m.x + m.width - 1 else rootw - 1)
        = min rootw (m.x + m.width) - 1 := by
      rcases le_total rootw (m.x + m.width) with h | h <;> split_ifs <;> omega
    have e2 : (if m.y + m.height ≤ rooth - 1 then m.y + m.height - 1 else rooth - 1)
        = min rooth (m.y + m.height) - 1 := by
      rcases le_total rooth (m.y + m.height) with h | h <;> split_ifs <;> omega
    rw [e1, e2]
  · have := min_le_left rootw (m.x + m.width)
    omega
  · have := min_le_left rooth (m.y + m.height)
    omega

/-- C7 witness: the general bound applied on the concrete two-monitor
layout at sample (1919, 1079), contained in monitor index 0. -/
theorem C7_monitor_bounds_witness :
    get_xymax 1919 1079 3840 1080 [⟨0, 0, 1920, 1080⟩, ⟨1920, 0, 1920, 1080⟩] =
      some (min 3840 (0 + 1920) - 1, min 1080 (0 + 1080) - 1) :=
  (C7_monitor_bounds 1919 1079 3840 1080
    [⟨0, 0, 1920, 1080⟩, ⟨1920, 0, 1920, 1080⟩] (by decide) 0 ⟨0, 0, 1920, 1080⟩
    (by decide) (by decide)).1

/-- C8: with more than one monitor, if no rectangle contains the sample the
resolver fails (`none`, modelling the source's `panic!`) instead of guessing
a monitor; and when a rectangle at index i contains the sample while all
earlier rectangles do not, the scan returns exactly index i (first match in
enumeration order wins). -/
theorem C8_containment (x y rootw rooth : Int) (monitors : List MonitorInfo)
    (h1 : 1 < monitors.length) :
    ((∀ m ∈ monitors, point_in_rect x y (m.x, m.y, m.width, m.height) = false) →
      get_xymax x y rootw rooth monitors = none) ∧
    (∀ i : Nat, ∀ m : MonitorInfo, monitors.get? i = some m →
      point_in_rect x y (m.x, m.y, m.width, m.height) = true →
      (∀ mj ∈ monitors.take i,
        point_in_rect x y (mj.x, mj.y, mj.width, mj.height) = false) →
      pointer_in_monitor x y monitors = some i) := by
  constructor
  · intro hno
    rw [get_xymax, if_neg (by omega), pointer_in_monitor_none x y monitors hno]
  · intro i m hm hmatch hbefore
    exact pointer_in_monitor_first x y monitors i m hm hmatch hbefore

/-- C8 witness: on the two-monitor layout, sample (5000, 5000) is outside
both rectangles and the resolver fails; sample (1920, 0) is contained in
monitor index 1 (and not in index 0), and the scan returns index 1. -/
theorem C8_containment_witness :
    get_xymax 5000 5000 3840 1080 [⟨0, 0, 1920, 1080⟩, ⟨1920, 0, 1920, 1080⟩] =
      none ∧
    pointer_in_monitor 1920 0 [⟨0, 0, 1920, 1080⟩, ⟨1920, 0, 1920, 1080⟩] =
      some 1 :=
  ⟨(C8_containment 5000 5000 3840 1080
      [⟨0, 0, 1920, 1080⟩, ⟨1920, 0, 1920, 1080⟩] (by decide)).1 (by decide),
   (C8_containment 1920 0 3840 1080
      [⟨0, 0, 1920, 1080⟩, ⟨1920, 0, 1920, 1080⟩] (by decide)).2 1
      ⟨1920, 0, 1920, 1080⟩ (by decide) (by decide) (by decide)⟩

/-- C10 witness: a boundary hit at (0, 500) and an interior point (5, 5). -/
theorem C10_boundary_only_witness :
    ((0 : Int) = 0 ∨ (0 : Int) = 1919 ∨ (500 : Int) = 0 ∨ (500 : Int) = 1079) ∧
    in_edge 5 5 1919 1079 269 = Edge.NONE :=
  ⟨(C10_boundary_only 0 500 1919 1079 269).1 (by decide),
   (C10_boundary_only 5 5 1919 1079 269).2 (by decide) (by decide) (by decide)
     (by decide)⟩

/-- C9: for every zone, `run` with no command configured for that zone is a
no-op (no launch), and a configured command whose whitespace tokenization is
empty is likewise a no-op, not an error. -/
theorem C9_dispatch_noop (cmds : Commands) (edge : Edge) :
    (cmd_for cmds edge = none → run cmds edge = none) ∧
    (∀ s, cmd_for cmds edge = some s → tokenize s = [] →
      run cmds edge = none) := by
  constructor
  · intro h
    simp [run, h]
  · intro s h ht
    simp [run, h, ht]

/-- C9 witness: a table with nothing configured for Left, and a table whose
TopLeft command is the all-whitespace string " ". -/
theorem C9_dispatch_noop_witness :
    run ⟨none, none, none, none, none, none, none, none⟩ Edge.LEFT = none ∧
    run ⟨some " ", none, none, none, none, none, none, none⟩ Edge.TOPLEFT
      = none :=
  ⟨(C9_dispatch_noop ⟨none, none, none, none, none, none, none, none⟩
      Edge.LEFT).1 rfl,
   (C9_dispatch_noop ⟨some " ", none, none, none, none, none, none, none⟩
      Edge.TOPLEFT).2 " " rfl (by decide)⟩

/-- C1: in a cycle that reaches classification (not suppressed) and whose
first classification is a non-None zone e, the command is dispatched if and
only if the post-delay re-sample classifies (with the same xmax, ymax and
offset) to the same zone e; any different second zone (including None)
yields no dispatch. -/
theorem C1_confirm_protocol (st : LoopState) (x y xmax ymax offset x2 y2 : Int)
    (e : Edge) (hs : suppressed st.oldx st.oldy x y xmax ymax offset = false)
    (he : in_edge x y xmax ymax offset = e) (hne : e ≠ Edge.NONE) :
    ((processMotion st x y xmax ymax offset (x2, y2)).1 = some e ↔
      in_edge x2 y2 xmax ymax offset = e) ∧
    (in_edge x2 y2 xmax ymax offset ≠ e →
      (processMotion st x y xmax ymax offset (x2, y2)).1 = none) := by
  have hP : processMotion st x y xmax ymax offset (x2, y2)
      = (if in_edge x2 y2 xmax ymax offset = e then some e else none,
         ⟨x, y⟩) := by
    simp [processMotion, hs, he, hne]
  rw [hP]
  constructor
  · constructor
    · intro h
      by_contra hc
      rw [if_neg hc] at h
      exact Option.noConfusion h
    · intro h
      rw [if_pos h]
  · intro h
    simp [if_neg h]

/-- C1 witness: previous state (3,7), first sample (0,0) classifying
TopLeft; the dispatch decision equals the second classification test. -/
theorem C1_confirm_protocol_witness :
    suppressed 3 7 0 0 1919 1079 269 = false ∧
    ((processMotion ⟨3, 7⟩ 0 0 1919 1079 269 (0, 0)).1 = some Edge.TOPLEFT ↔
      in_edge 0 0 1919 1079 269 = Edge.TOPLEFT) :=
  ⟨by decide,
   (C1_confirm_protocol ⟨3, 7⟩ 0 0 1919 1079 269 0 0 Edge.TOPLEFT (by decide)
     (by decide) (by decide)).1⟩

/-- C2 counterexample: previous state (3,7), pre-delay sample (0,0)
(classifying TopLeft, not suppressed), post-delay re-sample (500,500).  The
tracker is advanced to the pre-delay sample (0,0), not to the post-delay
(500,500) claimed by the spec: the Rust shadowing scopes the re-sampled
`(x, y)` to the confirmation block only. -/
theorem C2_counterexample :
    suppressed 3 7 0 0 1919 1079 269 = false ∧
    in_edge 0 0 1919 1079 269 ≠ Edge.NONE ∧
    (processMotion ⟨3, 7⟩ 0 0 1919 1079 269 (500, 500)).2 = (⟨0, 0⟩ : LoopState) ∧
    (processMotion ⟨3, 7⟩ 0 0 1919 1079 269 (500, 500)).2
      ≠ (⟨500, 500⟩ : LoopState) := by
  decide

/-- C2 amended: for every cycle that reaches classification, the tracker
state (oldx, oldy) is advanced to the pre-delay sample (x, y) that triggered
classification, regardless of the post-delay re-sample. -/
theorem C2_state_pre_delay (st : LoopState) (x y xmax ymax offset x2 y2 : Int)
    (hs : suppressed st.oldx st.oldy x y xmax ymax offset = false) :
    (processMotion st x y xmax ymax offset (x2, y2)).2 = ⟨x, y⟩ := by
  simp only [processMotion, hs, Bool.false_eq_true, if_false]
  split_ifs <;> rfl

/-- C2 amended witness: the counterexample cycle advances the tracker
to (0,0). -/
theorem C2_state_pre_delay_witness :
    (processMotion ⟨3, 7⟩ 0 0 1919 1079 269 (500, 500)).2 = (⟨0, 0⟩ : LoopState) :=
  C2_state_pre_delay ⟨3, 7⟩ 0 0 1919 1079 269 500 500 (by decide)

/-- C3: when the suppression condition holds for the fresh sample against
the tracker state, the cycle performs no classification and no dispatch and
leaves the tracker state unchanged (early `continue`), so identical repeats
keep comparing against the same stale (oldx, oldy). -/
theorem C3_suppressed_noop (st : LoopState) (x y xmax ymax offset : Int)
    (r : Int × Int)
    (hs : suppressed st.oldx st.oldy x y xmax ymax offset = true) :
    processMotion st x y xmax ymax offset r = (none, st) := by
  rw [processMotion, if_pos hs]

/-- C3 witness: a repeated identical sample (5,5) against state (5,5). -/
theorem C3_suppressed_noop_witness :
    processMotion ⟨5, 5⟩ 5 5 1919 1079 269 (0, 0) = (none, (⟨5, 5⟩ : LoopState)) :=
  C3_suppressed_noop ⟨5, 5⟩ 5 5 1919 1079 269 (0, 0) (by decide)

/-- C4 counterexample: the tracker is initialized to (1,1), but (1,1) is a
valid in-range sample (0 ≤ 1 ≤ xmax, 0 ≤ 1 ≤ ymax for any normal screen),
and a first processed sample equal to (1,1) does fire the identical-sample
suppression check — refuting the claim that the sentinel is out of range and
that no first sample can ever be treated as unchanged. -/
theorem C4_counterexample :
    initState = (⟨1, 1⟩ : LoopState) ∧
    (0 ≤ (1 : Int) ∧ (1 : Int) ≤ 1919 ∧ 0 ≤ (1 : Int) ∧ (1 : Int) ≤ 1079) ∧
    suppressed initState.oldx initState.oldy 1 1 1919 1079 269 = true := by
  decide

/-- C4 amended: the tracker is initialized to (1,1); this sentinel is NOT
out of range, and a first sample hitting x = 1 or y = 1 in the right
configuration can be suppressed, but any first sample with x ≠ 1 and y ≠ 1
is never suppressed. -/
theorem C4_sentinel (x y xmax ymax offset : Int) (hx : x ≠ 1) (hy : y ≠ 1) :
    suppressed initState.oldx initState.oldy x y xmax ymax offset = false := by
  rw [suppressed]
  apply decide_eq_false
  rintro (⟨h1, h2⟩ | ⟨h1, h2⟩ | ⟨h1, h2⟩)
  · exact hx h1
  · exact hx h1
  · exact hy h1

/-- C4 amended witness: the first sample (0,0) is not suppressed against
the initial state (1,1). -/
theorem C4_sentinel_witness :
    suppressed initState.oldx initState.oldy 0 0 1919 1079 269 = false :=
  C4_sentinel 0 0 1919 1079 269 (by decide) (by decide)

end Edges
